import Mathlib

/-!
Verification of the AlertGate dashboard client
(`src/web/static/dashboard.js`, class `AlertGateDashboard`).

The embedding models the DOM surfaces the code mutates as explicit state:
the events container is the list of its children (each child identified
with the detection event it renders, newest first), text elements hold the
semantic value last written to them, and the count of
`insertAdjacentHTML` calls records how often the event-list render
callback fired.
-/

namespace AlertGate

/-- A detection event as read by the dashboard: the `data` payload of an
`event` frame, or an element of the backfill response's `events` array.
Fields absent from the JSON object are `none`. -/
structure EventData where
  id : Option Int
  timestamp : Option String
  class_name : Option String
  confidence : Option Rat
  frame_number : Option Int
  zone : Option String
  deriving DecidableEq

/-- An event record with every field absent, for building concrete events. -/
def emptyEvent : EventData := ⟨none, none, none, none, none, none⟩

/-- `eventKey(e)` from dashboard.js: when `e.id` is a number the key is
`id:` followed by the id; otherwise it is `k:ts|cls|fn|zone`, where each
component is the field's value and an absent (or falsy, i.e. empty-string)
field contributes the empty string, matching the source's
`e.timestamp ? e.timestamp : ''` style defaulting and
`typeof e.frame_number` presence test. -/
def eventKey (e : EventData) : String :=
  match e.id with
  | some n => "id:" ++ toString n
  | none =>
      let ts := e.timestamp.getD ""
      let cls := e.class_name.getD ""
      let fn := match e.frame_number with
        | some k => toString k
        | none => ""
      let zn := e.zone.getD ""
      "k:" ++ ts ++ "|" ++ cls ++ "|" ++ fn ++ "|" ++ zn

/-- The dashboard state touched by `addEvent`: the `seenEventKeys` set
(modelled as the list of inserted keys), the children of
`eventsContainer` (newest first), and the number of render calls
(`insertAdjacentHTML`) performed so far. -/
structure DashState where
  seenEventKeys : List String
  eventsContainer : List EventData
  renders : Nat
  deriving DecidableEq

/-- Constructor state: `seenEventKeys = new Set()`, empty events container. -/
def initState : DashState := ⟨[], [], 0⟩

/-- `addEvent(eventData)` from dashboard.js: compute the key; if already
seen, return without any effect; otherwise record the key, prepend the
event to the container (`insertAdjacentHTML` at the beginning), and if
the container now has more than 20 children remove the last one. -/
def addEvent (s : DashState) (e : EventData) : DashState :=
  if eventKey e ∈ s.seenEventKeys then s
  else
    { seenEventKeys := eventKey e :: s.seenEventKeys
      eventsContainer :=
        if (e :: s.eventsContainer).length > 20 then
          (e :: s.eventsContainer).dropLast
        else
          e :: s.eventsContainer
      renders := s.renders + 1 }

theorem addEvent_of_mem {s : DashState} {e : EventData}
    (h : eventKey e ∈ s.seenEventKeys) : addEvent s e = s := by
  simp [addEvent, h]

theorem addEvent_of_not_mem {s : DashState} {e : EventData}
    (h : eventKey e ∉ s.seenEventKeys)
    (hlen : s.eventsContainer.length ≤ 20) :
    addEvent s e =
      { seenEventKeys := eventKey e :: s.seenEventKeys
        eventsContainer := (e :: s.eventsContainer).take 20
        renders := s.renders + 1 } := by
  simp only [addEvent, if_neg h]
  rcases Nat.lt_or_ge s.eventsContainer.length 20 with h20 | h20
  · have hle : (e :: s.eventsContainer).length ≤ 20 := by
      simp only [List.length_cons]; omega
    rw [if_neg (by omega), List.take_of_length_le hle]
  · have h20' : s.eventsContainer.length = 20 := le_antisymm hlen h20
    have hlen21 : (e :: s.eventsContainer).length = 21 := by
      simp [List.length_cons, h20']
    rw [if_pos (by omega), List.dropLast_eq_take, hlen21]

theorem mem_seen_addEvent (s : DashState) (e : EventData) :
    eventKey e ∈ (addEvent s e).seenEventKeys := by
  by_cases h : eventKey e ∈ s.seenEventKeys
  · simpa [addEvent_of_mem h] using h
  · simp [addEvent, h]

theorem seen_subset_addEvent (s : DashState) (e : EventData) :
    s.seenEventKeys ⊆ (addEvent s e).seenEventKeys := by
  by_cases h : eventKey e ∈ s.seenEventKeys
  · simp [addEvent_of_mem h]
  · intro k hk
    simp [addEvent, h]
    exact Or.inr hk

/-- Internal invariant of the dashboard event state: at most 20 children,
no two children share an `eventKey`, and every child's key has been
recorded in `seenEventKeys`. -/
def GoodState (s : DashState) : Prop :=
  s.eventsContainer.length ≤ 20 ∧
    (s.eventsContainer.map eventKey).Nodup ∧
    ∀ e ∈ s.eventsContainer, eventKey e ∈ s.seenEventKeys

theorem goodState_initState : GoodState initState := by
  refine ⟨by simp [initState], by simp [initState], ?_⟩
  intro e he
  simp [initState] at he

theorem goodState_addEvent {s : DashState} (hs : GoodState s)
    (e : EventData) : GoodState (addEvent s e) := by
  obtain ⟨hlen, hnodup, hseen⟩ := hs
  by_cases h : eventKey e ∈ s.seenEventKeys
  · rw [addEvent_of_mem h]; exact ⟨hlen, hnodup, hseen⟩
  · rw [addEvent_of_not_mem h hlen]
    have hsub : ((e :: s.eventsContainer).take 20).Sublist (e :: s.eventsContainer) :=
      List.take_sublist 20 _
    refine ⟨?_, ?_, ?_⟩
    · simp
    · have hkey : eventKey e ∉ s.eventsContainer.map eventKey := by
        intro hmem
        obtain ⟨x, hx, hkx⟩ := List.mem_map.mp hmem
        exact h (hkx ▸ hseen x hx)
      have : ((e :: s.eventsContainer).map eventKey).Nodup := by
        simpa [List.nodup_cons] using And.intro hkey hnodup
      exact this.sublist (hsub.map eventKey)
    · intro x hx
      have hx' : x ∈ e :: s.eventsContainer := hsub.mem hx
      rcases List.mem_cons.mp hx' with rfl | hx''
      · exact List.mem_cons_self _ _
      · exact List.mem_cons_of_mem _ (hseen x hx'')

theorem goodState_foldl {s : DashState} (hs : GoodState s)
    (es : List EventData) : GoodState (es.foldl addEvent s) := by
  induction es generalizing s with
  | nil => exact hs
  | cons e es ih => exact ih (goodState_addEvent hs e)

theorem take_append_take {α : Type _} (n : ℕ) (a b : List α) :
    (a ++ b.take n).take n = (a ++ b).take n := by
  rw [List.take_append_eq_append_take, List.take_append_eq_append_take, List.take_take,
    Nat.min_eq_left (Nat.sub_le n a.length)]

/-- Exact effect of folding `addEvent` over a list of events whose keys are
pairwise distinct and all fresh with respect to the starting state: every
event is admitted, the container becomes the admissions in reverse order
(newest first) truncated to 20, and one render fires per event. -/
theorem foldl_addEvent_fresh (xs : List EventData) :
    ∀ s : DashState, (xs.map eventKey).Nodup →
      (∀ x ∈ xs, eventKey x ∉ s.seenEventKeys) →
      s.eventsContainer.length ≤ 20 →
      xs.foldl addEvent s =
        { seenEventKeys := (xs.map eventKey).reverse ++ s.seenEventKeys
          eventsContainer := (xs.reverse ++ s.eventsContainer).take 20
          renders := s.renders + xs.length } := by
  induction xs with
  | nil =>
      intro s _ _ hlen
      simp [List.take_of_length_le hlen]
  | cons x xs ih =>
      intro s hnodup hfresh hlen
      have hx : eventKey x ∉ s.seenEventKeys :=
        hfresh x (List.mem_cons_self _ _)
      have hstep := addEvent_of_not_mem hx hlen
      rw [List.foldl_cons, hstep]
      have hsplit : (∀ y ∈ xs, ¬ eventKey y = eventKey x) ∧ (xs.map eventKey).Nodup := by
        simpa [List.map_cons, List.nodup_cons] using hnodup
      have hnodup' : (xs.map eventKey).Nodup := hsplit.2
      have hxnot : eventKey x ∉ xs.map eventKey := by
        intro hmem
        obtain ⟨y, hy, hky⟩ := List.mem_map.mp hmem
        exact hsplit.1 y hy hky
      have hfresh' : ∀ y ∈ xs, eventKey y ∉
          ({ seenEventKeys := eventKey x :: s.seenEventKeys
             eventsContainer := (x :: s.eventsContainer).take 20
             renders := s.renders + 1 } : DashState).seenEventKeys := by
        intro y hy
        simp only [List.mem_cons]
        rintro (hyx | hymem)
        · exact hxnot (hyx ▸ List.mem_map_of_mem eventKey hy)
        · exact hfresh y (List.mem_cons_of_mem _ hy) hymem
      have hlen' :
          (({ seenEventKeys := eventKey x :: s.seenEventKeys
              eventsContainer := (x :: s.eventsContainer).take 20
              renders := s.renders + 1 } : DashState)).eventsContainer.length ≤ 20 := by
        simp
      rw [ih _ hnodup' hfresh' hlen']
      simp only [DashState.mk.injEq, List.map_cons, List.reverse_cons, List.append_assoc,
        List.singleton_append, List.length_cons, take_append_take, true_and, and_true]
      omega

/-- Outcome of the `fetch` of the /api/events endpoint performed by `loadRecentEvents`:
either the whole fetch-and-parse throws (network failure — caught by the
surrounding try/catch), or a response arrives with its `ok` flag and the
optional `events` array of its JSON body. -/
inductive FetchResult where
  | failure : FetchResult
  | response (ok : Bool) (events : Option (List EventData)) : FetchResult
  deriving DecidableEq

/-- `loadRecentEvents()` from dashboard.js, as a function of the fetch
outcome: on a thrown error it only logs; on `!res.ok` it returns; otherwise
it takes `data.events || []` and calls `addEvent(events[i])` for `i` from
`events.length - 1` down to `0` (i.e. it folds `addEvent` over the
reversed array, oldest first). -/
def loadRecentEvents (s : DashState) (r : FetchResult) : DashState :=
  match r with
  | .failure => s
  | .response ok events =>
      if ok then ((events.getD []).reverse).foldl addEvent s else s

/-- Per-class temporal voting data inside a stats snapshot
(`stats.temporal_voting[className]`). -/
structure VotingClassStatus where
  current_votes : Int
  votes_required : Int
  history_length : Int
  window_size : Int
  deriving DecidableEq

/-- Motion data inside a stats snapshot (`stats.motion`); `area` and
`contours` are defaulted with `|| 0` at render time, so they are optional
here. -/
structure MotionStatus where
  detected : Bool
  area : Option Int
  contours : Option Int
  deriving DecidableEq

/-- A stats snapshot as read by `updateStats` and its helpers: exactly the
fields the code accesses, each optional since the payload is duck-typed.
`temporal_voting` is the object's entry list in `Object.entries` order. -/
structure Stats where
  fps : Option Rat
  total_detections : Option Int
  alerts_sent : Option Int
  frame_number : Option Int
  uptime : Option Nat
  temporal_voting : Option (List (String × VotingClassStatus))
  motion : Option MotionStatus
  deriving DecidableEq

/-- A snapshot with every field absent, for building concrete snapshots. -/
def emptyStats : Stats := ⟨none, none, none, none, none, none, none⟩

/-- `formatUptime(seconds)` from dashboard.js:
`Math.floor(seconds / 3600)` hours and `Math.floor((seconds % 3600) / 60)`
minutes (natural-number division is the floor). -/
def formatUptime (seconds : Nat) : String :=
  toString (seconds / 3600) ++ "h " ++ toString ((seconds % 3600) / 60) ++ "m"

/-- The four stat cards written into `statsGrid` by `updateStatsGrid`,
holding the semantic value of each card (`stats.<field> || 0` defaults). -/
structure GridView where
  total_detections : Int
  alerts_sent : Int
  frame_number : Int
  uptime : String
  deriving DecidableEq

/-- `updateStatsGrid(stats)` from dashboard.js: rebuilds the grid from the
snapshot, defaulting each absent field with `|| 0` (for an integer field,
absent and 0 both render as 0, so `getD 0` is exact). -/
def updateStatsGrid (st : Stats) : GridView :=
  { total_detections := st.total_detections.getD 0
    alerts_sent := st.alerts_sent.getD 0
    frame_number := st.frame_number.getD 0
    uptime := formatUptime (st.uptime.getD 0) }

/-- `(data.current_votes / data.votes_required) * 100` from
`updateVotingStatus`, over exact rationals. -/
def votingPercentage (d : VotingClassStatus) : Rat :=
  (d.current_votes : Rat) / (d.votes_required : Rat) * 100

/-- The color pick from `updateVotingStatus` - #28a745 when percentage >= 100, else #ffc107:
the completion color is chosen from the unclamped percentage. -/
def progressColor (d : VotingClassStatus) : String :=
  if 100 ≤ votingPercentage d then "#28a745" else "#ffc107"

/-- `Math.min(percentage, 100)`, the clamped width of the voting bar. -/
def votingBarWidth (d : VotingClassStatus) : Rat :=
  min (votingPercentage d) 100

/-- One rendered voting row: the semantic values `updateVotingStatus`
interpolates into the row's HTML. -/
structure VotingRow where
  className : String
  votesText : String
  width : Rat
  color : String
  windowText : String
  deriving DecidableEq

/-- The row built for one `Object.entries(votingData)` entry inside
`updateVotingStatus`. -/
def renderVotingRow (className : String) (d : VotingClassStatus) : VotingRow :=
  { className := className.toUpper
    votesText := toString d.current_votes ++ "/" ++ toString d.votes_required ++ " votes"
    width := votingBarWidth d
    color := progressColor d
    windowText := "Window: " ++ toString d.history_length ++ "/" ++
      toString d.window_size ++ " frames" }

/-- `updateVotingStatus(votingData)` from dashboard.js: maps every entry of
the voting object to its rendered row and replaces `votingStatus`. -/
def updateVotingStatus (votingData : List (String × VotingClassStatus)) : List VotingRow :=
  votingData.map fun p => renderVotingRow p.1 p.2

/-- The motion indicator surface written by `updateMotionStatus`. -/
structure MotionView where
  dotActive : Bool
  text : String
  area : Int
  contours : Int
  deriving DecidableEq

/-- `updateMotionStatus(motionData)` from dashboard.js. -/
def updateMotionStatus (motionData : MotionStatus) : MotionView :=
  { dotActive := motionData.detected
    text := if motionData.detected then "Motion Detected" else "No Motion"
    area := motionData.area.getD 0
    contours := motionData.contours.getD 0 }

/-- The display surfaces `updateStats` can write: the FPS label (the value
last shown, `none` before any write), the stats grid, the voting rows, and
the motion indicator (`none` before any write). -/
structure Display where
  fpsCounter : Option Rat
  statsGrid : GridView
  votingStatus : List VotingRow
  motionView : Option MotionView
  deriving DecidableEq

/-- `updateStats(stats)` from dashboard.js: writes the FPS label only when
`stats.fps` is truthy (present and nonzero), always calls
`updateStatsGrid(stats)`, and updates voting and motion only when
`stats.temporal_voting` resp. `stats.motion` are present (an object is
always truthy). -/
def updateStats (d : Display) (st : Stats) : Display :=
  let d1 := if st.fps.getD 0 ≠ 0 then { d with fpsCounter := st.fps } else d
  let d2 := { d1 with statsGrid := updateStatsGrid st }
  let d3 := match st.temporal_voting with
    | some v => { d2 with votingStatus := updateVotingStatus v }
    | none => d2
  match st.motion with
  | some m => { d3 with motionView := some (updateMotionStatus m) }
  | none => d3

/-- Display before any snapshot arrived: empty labels and grid. -/
def initDisplay : Display :=
  { fpsCounter := none
    statsGrid := ⟨0, 0, 0, formatUptime 0⟩
    votingStatus := []
    motionView := none }

/-- An inbound WebSocket text frame as seen by `ws.onmessage`: either its
payload is not parseable as JSON (`JSON.parse` throws a SyntaxError), or
it parses to an object classified by its `type` discriminant — `stats`
with a snapshot payload, `event` with an event payload, or anything else
(missing or unrecognized `type`). -/
inductive Frame where
  | notJson (raw : String) : Frame
  | statsFrame (st : Stats) : Frame
  | eventFrame (e : EventData) : Frame
  | otherFrame (type_ : Option String) : Frame
  deriving DecidableEq

/-- The mutable state reachable from the message handler: the event buffer
state and the stats display. -/
structure AppState where
  dash : DashState
  display : Display
  deriving DecidableEq

/-- The `ws.onmessage` handler from dashboard.js. The body starts with
`const data = JSON.parse(event.data)` with no try/catch, so a non-JSON
payload makes the handler throw (modelled as `Except.error`) before any
state is touched; a parsed frame is dispatched on `data.type`, and frames
with any other `type` fall through with no effect. -/
def onmessage (s : AppState) (f : Frame) : Except String AppState :=
  match f with
  | .notJson _ => .error "SyntaxError"
  | .statsFrame st => .ok { s with display := updateStats s.display st }
  | .eventFrame e => .ok { s with dash := addEvent s.dash e }
  | .otherFrame _ => .ok s

/-- Connection-lifecycle state: the number of channels currently alive
(constructed and not yet closed) and the number of pending 3-second
reconnect timers. `isConnected` is the flag the code maintains. -/
structure ConnSt where
  activeChannels : Nat
  pendingReconnects : Nat
  isConnected : Bool
  deriving DecidableEq

/-- `connectWebSocket()` from dashboard.js: unconditionally constructs a
new WebSocket and overwrites `this.ws` with it. The previous channel, if
any, is neither closed nor reused, so the count of alive channels always
grows by one. -/
def connectWebSocket (s : ConnSt) : ConnSt :=
  { s with activeChannels := s.activeChannels + 1 }

/-- The `ws.onopen` handler: sets `isConnected = true` (and notifies the
status observer). -/
def onopen (s : ConnSt) : ConnSt :=
  { s with isConnected := true }

/-- The `ws.onclose` handler: the closing channel is no longer alive,
`isConnected = false`, and one reconnect is scheduled via
`setTimeout(..., 3000)`. -/
def onclose (s : ConnSt) : ConnSt :=
  { activeChannels := s.activeChannels - 1
    pendingReconnects := s.pendingReconnects + 1
    isConnected := false }

/-- A scheduled reconnect timer fires: the timer is consumed and its
callback calls `connectWebSocket()`. -/
def reconnectFire (s : ConnSt) : ConnSt :=
  connectWebSocket { s with pendingReconnects := s.pendingReconnects - 1 }

/-- Connection states reachable along the code's actual control flow:
`connectWebSocket` runs once from the constructor, a close can occur only
while a channel is alive, and a reconnect can fire only while a timer is
pending (its callback is the only other caller of `connectWebSocket`).
`onopen` and the `onerror` handler touch neither channels nor timers,
so they do not change the two counts. -/
inductive ReachableConn : ConnSt → Prop where
  | start : ReachableConn (connectWebSocket ⟨0, 0, false⟩)
  | opened {s : ConnSt} : ReachableConn s → ReachableConn (onopen s)
  | closed {s : ConnSt} : ReachableConn s → 1 ≤ s.activeChannels →
      ReachableConn (onclose s)
  | timer {s : ConnSt} : ReachableConn s → 1 ≤ s.pendingReconnects →
      ReachableConn (reconnectFire s)

theorem reachableConn_sum {s : ConnSt} (h : ReachableConn s) :
    s.activeChannels + s.pendingReconnects = 1 := by
  induction h with
  | start => rfl
  | opened _ ih => simpa [onopen] using ih
  | closed hlive ih =>
      simp only [onclose]
      omega
  | timer hpend ih =>
      simp only [reconnectFire, connectWebSocket]
      omega

/-- Normal form of `updateStats`: the grid is rebuilt unconditionally,
while the FPS label, voting rows and motion indicator keep their old
values unless the corresponding snapshot field is present (and, for fps,
nonzero). -/
theorem updateStats_eq (d : Display) (st : Stats) :
    updateStats d st =
      { fpsCounter := if st.fps.getD 0 = 0 then d.fpsCounter else st.fps
        statsGrid := updateStatsGrid st
        votingStatus := match st.temporal_voting with
          | some v => updateVotingStatus v
          | none => d.votingStatus
        motionView := match st.motion with
          | some m => some (updateMotionStatus m)
          | none => d.motionView } := by
  unfold updateStats
  by_cases hf : st.fps.getD 0 = 0 <;>
    cases st.temporal_voting <;> cases st.motion <;> simp [hf]

/-- C2: for every sequence of admit (`addEvent`) calls starting from the
empty buffer, the event list never exceeds 20 entries and never contains
two entries with equal `eventKey`. -/
theorem c2_buffer_bounded_and_deduplicated (es : List EventData) :
    (es.foldl addEvent initState).eventsContainer.length ≤ 20 ∧
      ((es.foldl addEvent initState).eventsContainer.map eventKey).Nodup := by
  have h := goodState_foldl goodState_initState es
  exact ⟨h.1, h.2.1⟩

/-- C3: for every buffer state and every event, admitting the event twice
in succession leaves the state — events container, seen-key set and
render-callback count alike — identical to admitting it once; the second
admit is a no-op with no observable effect. -/
theorem c3_admit_idempotent (s : DashState) (e : EventData) :
    addEvent (addEvent s e) e = addEvent s e :=
  addEvent_of_mem (mem_seen_addEvent s e)

/-- C6: `eventKey` identity — a present numeric `id` is authoritative (two
events sharing an id compute equal keys whatever their other fields, and
are treated as duplicates by `addEvent`); with `id` absent the key is a
function of exactly the tuple (timestamp, class_name, frame_number,
zone). -/
theorem c6_eventKey_identity :
    (∀ (e₁ e₂ : EventData) (n : Int), e₁.id = some n → e₂.id = some n →
        eventKey e₁ = eventKey e₂) ∧
    (∀ e₁ e₂ : EventData, e₁.id = none → e₂.id = none →
        e₁.timestamp = e₂.timestamp → e₁.class_name = e₂.class_name →
        e₁.frame_number = e₂.frame_number → e₁.zone = e₂.zone →
        eventKey e₁ = eventKey e₂) ∧
    (∀ (s : DashState) (e₁ e₂ : EventData), eventKey e₁ = eventKey e₂ →
        addEvent (addEvent s e₁) e₂ = addEvent s e₁) := by
  refine ⟨?_, ?_, ?_⟩
  · intro e₁ e₂ n h₁ h₂
    simp [eventKey, h₁, h₂]
  · intro e₁ e₂ h₁ h₂ hts hcls hfn hzn
    simp [eventKey, h₁, h₂, hts, hcls, hfn, hzn]
  · intro s e₁ e₂ hkey
    exact addEvent_of_mem (hkey ▸ mem_seen_addEvent s e₁)

/-- Witness for C6 at the spec's example: two events sharing id 7 but
differing in every other field compute equal keys. -/
theorem c6_eventKey_identity_witness :
    (⟨some 7, none, some "cat", none, some 3, none⟩ : EventData).id = some 7 ∧
    (⟨some 7, some "2024-01-01", some "dog", some 1, some 9, some "yard"⟩ : EventData).id
        = some 7 ∧
    eventKey ⟨some 7, none, some "cat", none, some 3, none⟩ =
      eventKey ⟨some 7, some "2024-01-01", some "dog", some 1, some 9, some "yard"⟩ :=
  ⟨rfl, rfl, c6_eventKey_identity.1 _ _ 7 rfl rfl⟩

/-- C10: the seen-key set only grows — `addEvent` never removes keys, an
event whose key is already in the set is dropped with no effect even when
its original copy was long evicted from the 20-entry list, and admitting
n events with pairwise distinct keys from the initial state leaves a
seen-set of size exactly n (unbounded growth). -/
theorem c10_seen_keys_monotone :
    (∀ (s : DashState) (e : EventData),
        s.seenEventKeys ⊆ (addEvent s e).seenEventKeys) ∧
    (∀ (s : DashState) (e : EventData), eventKey e ∈ s.seenEventKeys →
        addEvent s e = s) ∧
    (∀ es : List EventData, (es.map eventKey).Nodup →
        (es.foldl addEvent initState).seenEventKeys.length = es.length) := by
  refine ⟨seen_subset_addEvent, fun _ _ h => addEvent_of_mem h, ?_⟩
  intro es hnodup
  have hfresh : ∀ x ∈ es, eventKey x ∉ initState.seenEventKeys := by
    intro x _ hx
    simp [initState] at hx
  rw [foldl_addEvent_fresh es initState hnodup hfresh (by simp [initState])]
  simp [initState]

/-- Witness for C10: with key id:1 already seen (its event no longer in
the container), re-admitting an event with id 1 is a no-op, and two
distinct-key admissions from the initial state give a seen-set of size
2. -/
theorem c10_seen_keys_monotone_witness :
    eventKey ⟨some 1, none, none, none, none, none⟩ ∈
        (⟨["id:1"], [], 1⟩ : DashState).seenEventKeys ∧
    addEvent ⟨["id:1"], [], 1⟩ ⟨some 1, none, none, none, none, none⟩ =
        ⟨["id:1"], [], 1⟩ ∧
    (([⟨some 1, none, none, none, none, none⟩,
       ⟨some 2, none, none, none, none, none⟩] : List EventData).map eventKey).Nodup ∧
    (([⟨some 1, none, none, none, none, none⟩,
       ⟨some 2, none, none, none, none, none⟩] : List EventData).foldl
        addEvent initState).seenEventKeys.length = 2 :=
  ⟨by decide, c10_seen_keys_monotone.2.1 _ _ (by decide), by decide,
    c10_seen_keys_monotone.2.2 _ (by decide)⟩

/-- C7: backfill ordering — for a successful backfill response whose
events array is newest-first with pairwise distinct keys, the loader
admits the array in reverse (oldest first), so that afterwards admitting
one fresh live event leaves the container equal to the live event
followed by the backfill array in its original newest-first order,
truncated to 20; a thrown fetch or a non-ok response leaves the state
untouched. -/
theorem c7_backfill_order (evs : List EventData) (live : EventData)
    (hnodup : (evs.map eventKey).Nodup)
    (hlive : eventKey live ∉ evs.map eventKey) :
    (addEvent (loadRecentEvents initState (.response true (some evs)))
        live).eventsContainer = (live :: evs).take 20 ∧
    (∀ (s : DashState) (o : Option (List EventData)),
        loadRecentEvents s .failure = s ∧ loadRecentEvents s (.response false o) = s) := by
  refine ⟨?_, fun s o => ⟨rfl, by simp [loadRecentEvents]⟩⟩
  have hload : loadRecentEvents initState (.response true (some evs)) =
      evs.reverse.foldl addEvent initState := by
    simp [loadRecentEvents]
  have hnodup' : (evs.reverse.map eventKey).Nodup := by
    rw [List.map_reverse]
    exact List.nodup_reverse.mpr hnodup
  have hfresh : ∀ x ∈ evs.reverse, eventKey x ∉ initState.seenEventKeys := by
    intro x _ hx
    simp [initState] at hx
  have hfold := foldl_addEvent_fresh evs.reverse initState hnodup' hfresh
    (by simp [initState])
  rw [hload, hfold]
  have hmem : eventKey live ∉
      (((evs.reverse.map eventKey).reverse ++ initState.seenEventKeys : List String)) := by
    simp only [List.map_reverse, List.reverse_reverse, initState, List.append_nil]
    exact hlive
  rw [addEvent_of_not_mem hmem (by simp)]
  simp only [List.reverse_reverse, initState, List.append_nil]
  rw [← List.singleton_append, take_append_take, List.singleton_append]

/-- Witness for C7: two backfill events (newest-first ids 1, 2) and a
fresh live event (id 3) end up ordered live first, then the backfill
newest-first. -/
theorem c7_backfill_order_witness :
    (([⟨some 1, none, none, none, none, none⟩,
       ⟨some 2, none, none, none, none, none⟩] : List EventData).map eventKey).Nodup ∧
    eventKey ⟨some 3, none, none, none, none, none⟩ ∉
      ([⟨some 1, none, none, none, none, none⟩,
        ⟨some 2, none, none, none, none, none⟩] : List EventData).map eventKey ∧
    (addEvent (loadRecentEvents initState
        (.response true (some [⟨some 1, none, none, none, none, none⟩,
          ⟨some 2, none, none, none, none, none⟩])))
        ⟨some 3, none, none, none, none, none⟩).eventsContainer =
      [⟨some 3, none, none, none, none, none⟩,
       ⟨some 1, none, none, none, none, none⟩,
       ⟨some 2, none, none, none, none, none⟩] :=
  ⟨by decide, by decide,
    (c7_backfill_order _ _ (by decide) (by decide)).1.trans (by decide)⟩

/-- C8: the unclamped voting percentage decides the color (at least 100
gives the complete color #28a745, below 100 the in-progress color
#ffc107) while the bar width is the percentage clamped to [0,100]; in
particular 3/5 gives 60 and in-progress, 5/5 gives 100 and complete, and
6/5 gives 120 unclamped, width clamped to 100, color still complete. -/
theorem c8_voting_threshold_unclamped :
    (votingPercentage ⟨3, 5, 0, 10⟩ = 60 ∧
      progressColor ⟨3, 5, 0, 10⟩ = "#ffc107") ∧
    (votingPercentage ⟨5, 5, 0, 10⟩ = 100 ∧
      progressColor ⟨5, 5, 0, 10⟩ = "#28a745") ∧
    (votingPercentage ⟨6, 5, 0, 10⟩ = 120 ∧
      votingBarWidth ⟨6, 5, 0, 10⟩ = 100 ∧
      progressColor ⟨6, 5, 0, 10⟩ = "#28a745") ∧
    (∀ d : VotingClassStatus, 100 ≤ votingPercentage d →
      progressColor d = "#28a745" ∧ votingBarWidth d = 100) ∧
    (∀ d : VotingClassStatus, votingPercentage d < 100 →
      progressColor d = "#ffc107" ∧ votingBarWidth d = votingPercentage d) := by
  refine ⟨⟨?_, ?_⟩, ⟨?_, ?_⟩, ⟨?_, ?_, ?_⟩, ?_, ?_⟩
  · norm_num [votingPercentage]
  · rw [progressColor, if_neg (by norm_num [votingPercentage])]
  · norm_num [votingPercentage]
  · rw [progressColor, if_pos (by norm_num [votingPercentage])]
  · norm_num [votingPercentage]
  · rw [votingBarWidth]
    exact min_eq_right (by norm_num [votingPercentage])
  · rw [progressColor, if_pos (by norm_num [votingPercentage])]
  · intro d h
    exact ⟨if_pos h, min_eq_right h⟩
  · intro d h
    exact ⟨if_neg (not_le.mpr h), min_eq_left h.le⟩

/-- Witness for C8 at the 6-of-5 row: the unclamped percentage reaches
the threshold, so the color is the complete one and the width clamps. -/
theorem c8_voting_threshold_unclamped_witness :
    100 ≤ votingPercentage ⟨6, 5, 0, 10⟩ ∧
    (progressColor ⟨6, 5, 0, 10⟩ = "#28a745" ∧ votingBarWidth ⟨6, 5, 0, 10⟩ = 100) :=
  ⟨by norm_num [votingPercentage],
    c8_voting_threshold_unclamped.2.2.2.1 _ (by norm_num [votingPercentage])⟩

/-- C9: the uptime shown in the stats grid comes from the snapshot's
uptime field (defaulted to 0) through `formatUptime`, which computes the
floor of seconds/3600 as hours and the floor of (seconds mod 3600)/60 as
minutes; `formatUptime 3661 = "1h 1m"` and `formatUptime 0 = "0h 0m"`. -/
theorem c9_uptime_display :
    (∀ st : Stats, (updateStatsGrid st).uptime = formatUptime (st.uptime.getD 0)) ∧
    (∀ s : Nat, formatUptime s =
        toString ⌊(s : Rat) / 3600⌋₊ ++ "h " ++
          toString ⌊((s % 3600 : Nat) : Rat) / 60⌋₊ ++ "m") ∧
    formatUptime 3661 = "1h 1m" ∧ formatUptime 0 = "0h 0m" := by
  refine ⟨fun st => rfl, ?_, by decide, by decide⟩
  intro s
  rw [Nat.floor_div_ofNat, Nat.floor_div_ofNat, Nat.floor_natCast, Nat.floor_natCast]
  rfl

/-- C1 (code evaluated at the failing input): the `onmessage` handler
parses the payload with `JSON.parse` outside any try/catch, so processing
a frame whose payload is not JSON — such as the literal heartbeat token
the client itself emits — makes the handler throw a SyntaxError instead
of silently discarding the frame; no successor state is produced (zero
mutation), but the claimed no-raise behaviour fails. -/
theorem c1_nonjson_frame_raises :
    onmessage ⟨initState, initDisplay⟩ (Frame.notJson "heartbeat") =
        Except.error "SyntaxError" ∧
    ∀ (s : AppState) (raw : String),
        onmessage s (Frame.notJson raw) = Except.error "SyntaxError" :=
  ⟨rfl, fun _ _ => rfl⟩

/-- Display state used to exhibit the C4 counterexample: the grid shows
values written by an earlier full snapshot. -/
def c4Display : Display :=
  { fpsCounter := none
    statsGrid := ⟨7, 3, 42, formatUptime 3661⟩
    votingStatus := []
    motionView := none }

/-- Partial snapshot used in the C4 counterexample: only `fps` present. -/
def c4Stats : Stats :=
  { fps := some 5
    total_detections := none
    alerts_sent := none
    frame_number := none
    uptime := none
    temporal_voting := none
    motion := none }

/-- Counterexample to C4 as stated: a snapshot carrying only `fps` — all
counter fields absent — still rewrites the counters grid, resetting it to
the defaults and changing its rendered state. -/
theorem c4_counterexample :
    c4Stats.total_detections = none ∧ c4Stats.alerts_sent = none ∧
    c4Stats.frame_number = none ∧ c4Stats.uptime = none ∧
    (updateStats c4Display c4Stats).statsGrid ≠ c4Display.statsGrid := by
  refine ⟨rfl, rfl, rfl, rfl, ?_⟩
  rw [updateStats_eq]
  decide

/-- C4 (amended): the FPS, voting and motion sub-views are updated exactly
when the corresponding snapshot field is present (for fps: present and
nonzero, since the code tests its truthiness), but the counters grid is
re-rendered on every snapshot, absent fields defaulting to 0. -/
theorem c4_partial_snapshot_views (d : Display) (st : Stats) :
    (updateStats d st).statsGrid = updateStatsGrid st ∧
    (st.fps.getD 0 = 0 → (updateStats d st).fpsCounter = d.fpsCounter) ∧
    (∀ q : Rat, st.fps = some q → q ≠ 0 → (updateStats d st).fpsCounter = some q) ∧
    (st.temporal_voting = none → (updateStats d st).votingStatus = d.votingStatus) ∧
    (∀ v, st.temporal_voting = some v →
        (updateStats d st).votingStatus = updateVotingStatus v) ∧
    (st.motion = none → (updateStats d st).motionView = d.motionView) ∧
    (∀ m, st.motion = some m →
        (updateStats d st).motionView = some (updateMotionStatus m)) := by
  rw [updateStats_eq]
  refine ⟨rfl, ?_, ?_, ?_, ?_, ?_, ?_⟩
  · intro h
    simp [h]
  · intro q hq hq0
    simp [hq, hq0]
  · intro h
    simp [h]
  · intro v hv
    simp [hv]
  · intro h
    simp [h]
  · intro m hm
    simp [hm]

/-- Witness for C4 (amended) at a snapshot carrying only motion data: the
motion view is rewritten and the voting rows and FPS label are kept. -/
theorem c4_partial_snapshot_views_witness :
    ({ emptyStats with motion := some ⟨true, some 12, some 2⟩ } : Stats).temporal_voting
        = none ∧
    (updateStats c4Display { emptyStats with motion := some ⟨true, some 12, some 2⟩ }
      ).votingStatus = c4Display.votingStatus ∧
    (updateStats c4Display { emptyStats with motion := some ⟨true, some 12, some 2⟩ }
      ).motionView = some (updateMotionStatus ⟨true, some 12, some 2⟩) :=
  ⟨rfl,
    (c4_partial_snapshot_views c4Display _).2.2.2.1 rfl,
    (c4_partial_snapshot_views c4Display _).2.2.2.2.2.2 _ rfl⟩

/-- Counterexample to C5 as stated: from the reachable state right after
the constructor's connect — one channel pending — calling
`connectWebSocket` again yields two simultaneously active channels, so
the function is not idempotent with respect to a pending attempt. -/
theorem c5_counterexample :
    ReachableConn (connectWebSocket ⟨0, 0, false⟩) ∧
    (connectWebSocket ⟨0, 0, false⟩).activeChannels = 1 ∧
    (connectWebSocket (connectWebSocket ⟨0, 0, false⟩)).activeChannels = 2 :=
  ⟨ReachableConn.start, rfl, rfl⟩

/-- C5 (amended): `connectWebSocket` itself is unguarded — invoked while
a channel is pending or open it leaves that channel alive and opens a
second one — but along the code's actual control flow, where it runs once
from the constructor and otherwise only from the reconnect timer that a
close schedules, at most one channel is ever active. -/
theorem c5_at_most_one_channel (s : ConnSt) (h : ReachableConn s) :
    s.activeChannels ≤ 1 := by
  have := reachableConn_sum h
  omega

/-- Witness for C5 (amended) at the constructor state. -/
theorem c5_at_most_one_channel_witness :
    ReachableConn (connectWebSocket ⟨0, 0, false⟩) ∧
    (connectWebSocket ⟨0, 0, false⟩).activeChannels ≤ 1 :=
  ⟨ReachableConn.start, c5_at_most_one_channel _ ReachableConn.start⟩

end AlertGate
